/-
Verification of the WooCommerce ↔ Odoo synchronization bridge
(`odoo-woocommerce`): a shallow embedding of the reconciliation logic in
`src/clients/woo_client.py`, `src/clients/odoo_client.py` and
`src/services/sync_service.py`, followed by theorems settling the spec's
claims about it.

Modelling conventions:
- Python dicts become Lean structures; keys that may be absent become
  `Option` fields.
- Machine/JSON numbers: quantities and ids are `Int`/`Nat`; monetary
  amounts are `Rat` (the code only ever performs one division on them).
- Raised Python exceptions that are caught by an enclosing
  `try/except` are modelled with `Option`/`Except`; the enclosing handler
  is the `match` that turns the error into the source's fallback value.
- Network calls (XML-RPC / REST round trips) are modelled by explicit
  oracle functions supplied as arguments: the service layer sees only the
  results the client layer would hand it, exactly as in the source where
  the clients are injected collaborators.
- Strings are treated at ASCII granularity (`Char.toLower`,
  `Char.isDigit`), matching the payloads the bridge exchanges.
-/
import Mathlib

namespace OdooWoo

/-! ## String helpers (Python `in`, `str.lower`, `str.isdigit`, `int(...)`) -/

/-- Python `prefix` test on character lists: `charsPrefixOf n h` is true
when `n` is an initial segment of `h`. -/
def charsPrefixOf : List Char → List Char → Bool
  | [], _ => true
  | _ :: _, [] => false
  | a :: as, b :: bs => a == b && charsPrefixOf as bs

/-- `charsInfixOf n h`: `n` occurs contiguously inside `h`
(Python's `n in h` on strings). -/
def charsInfixOf (needle : List Char) : List Char → Bool
  | [] => charsPrefixOf needle []
  | b :: bs => charsPrefixOf needle (b :: bs) || charsInfixOf needle bs

/-- Python `needle in hay` for strings. -/
def strContains (hay needle : String) : Bool :=
  charsInfixOf needle.data hay.data

/-- Python `str.isdigit()` restricted to the ASCII payloads the bridge
handles: nonempty and every character a decimal digit. -/
def pyIsDigit (s : String) : Bool :=
  !s.data.isEmpty && s.data.all Char.isDigit

/-- Numeric value of a list of decimal digit characters. -/
def digitsToNat (l : List Char) : Nat :=
  l.foldl (fun n c => n * 10 + (c.toNat - ('0').toNat)) 0

/-- Python `int(s)` on a string that `str.isdigit()` accepted. -/
def pyDigitsToNat (s : String) : Nat :=
  digitsToNat s.data

/-- Valid digit run for Python `int(...)` string parsing (PEP 515):
nonempty, starts and ends with a digit, an underscore may appear only
between two digits. -/
def pyDigitRunValid : List Char → Bool
  | [] => false
  | [c] => c.isDigit
  | c :: d :: rest =>
    c.isDigit &&
      (if d == '_' then
        (match rest with
          | [] => false
          | e :: _ => e.isDigit && pyDigitRunValid rest)
      else pyDigitRunValid (d :: rest))

/-- ASCII whitespace stripped by Python `str.strip()` / `int(...)`. -/
def isPySpace (c : Char) : Bool :=
  c == ' ' || c == '\t' || c == '\n' || c == '\r' || c == '\x0b' || c == '\x0c'

/-- Python whitespace stripping on both ends (ASCII granularity). -/
def pyStrip (l : List Char) : List Char :=
  ((l.dropWhile isPySpace).reverse.dropWhile isPySpace).reverse

/-- Python `int(s)` on a string: strips surrounding whitespace, accepts an
optional sign and a digit run with single underscores between digits
(PEP 515); `none` models the `ValueError` it raises otherwise. -/
def pyInt (s : String) : Option Int :=
  match pyStrip s.data with
  | '+' :: rest =>
    if pyDigitRunValid rest then some (digitsToNat (rest.filter (· != '_'))) else none
  | '-' :: rest =>
    if pyDigitRunValid rest then some (-(digitsToNat (rest.filter (· != '_')) : Int)) else none
  | chars =>
    if pyDigitRunValid chars then some (digitsToNat (chars.filter (· != '_'))) else none

/-- Python `str.lower()` at ASCII granularity. -/
def pyLower (s : String) : String :=
  String.mk (s.data.map Char.toLower)

/-! ## Storefront (WooCommerce) data model — §6 inbound webhook payload -/

/-- One entry of a line item's `meta_data` array. -/
structure MetaEntry where
  key : String
  value : String
  deriving Repr, DecidableEq

/-- `line_items[]` element of a storefront order. `total` is the numeric
value of the JSON string (the `float(item['total'])` parse is abstracted
to the value it yields). -/
structure LineItem where
  product_id : Nat
  name : String
  quantity : Int
  total : Rat
  meta_data : List MetaEntry
  deriving Repr, DecidableEq

/-- `billing` sub-object of a storefront order. -/
structure Billing where
  email : String
  first_name : String
  last_name : String
  phone : String
  deriving Repr, DecidableEq

/-- Inbound storefront order payload. -/
structure WooOrder where
  id : Nat
  number : String
  status : String
  customer_id : Nat
  date_created : String
  total : Rat
  billing : Billing
  line_items : List LineItem
  deriving Repr, DecidableEq

/-- Customer summary embedded in a booking
(`woo_client.extract_booking_data`, the `customer` sub-dict). -/
structure BookingCustomer where
  id : Nat
  email : String
  name : String
  phone : String
  deriving Repr, DecidableEq

/-- The ephemeral Booking transfer object built by
`extract_booking_data` (§3 of the spec). Optional keys of the Python
dict are `Option` fields. -/
structure Booking where
  order_id : Nat
  order_number : String
  product_id : Nat
  product_name : String
  quantity : Int
  total : Rat
  customer : BookingCustomer
  booking_date : String
  persons : Int
  duration : Option String
  booking_end : Option String
  deriving Repr, DecidableEq

/-- Mutable state of the `booking_data` dict while the metadata loop of
`extract_booking_data` runs: which optional keys have been set so far. -/
structure BookingAcc where
  booking_date : Option String
  persons : Option Int
  duration : Option String
  booking_end : Option String
  deriving Repr, DecidableEq

/-- Initial loop state: none of the optional keys present. -/
def BookingAcc.init : BookingAcc :=
  { booking_date := none, persons := none, duration := none, booking_end := none }

/-- Python `int(value) if str(value).isdigit() else 1` on a metadata
value (the person-count parse in `extract_booking_data`). -/
def parsePersons (value : String) : Int :=
  if pyIsDigit value then (pyDigitsToNat value : Int) else 1

/-- One iteration of the metadata loop in `extract_booking_data`
(woo_client.py lines 158–169): lower-case the key, then the
if/elif chain on substring membership. -/
def scanMeta (acc : BookingAcc) (meta : MetaEntry) : BookingAcc :=
  let key := pyLower meta.key
  let value := meta.value
  if strContains key "booking_date" || strContains key "from" then
    { acc with booking_date := some value }
  else if strContains key "persons" || strContains key "person" then
    { acc with persons := some (parsePersons value) }
  else if strContains key "duration" then
    { acc with duration := some value }
  else if strContains key "to" && acc.booking_date.isNone then
    { acc with booking_end := some value }
  else acc

/-- `extract_booking_data` restricted to one line item: build the booking
dict, run the metadata loop, then apply the two fallbacks
(`booking_date := order['date_created']`, `persons := 1`). -/
def bookingOfItem (order : WooOrder) (item : LineItem) : Booking :=
  let acc := item.meta_data.foldl scanMeta BookingAcc.init
  { order_id := order.id
    order_number := order.number
    product_id := item.product_id
    product_name := item.name
    quantity := item.quantity
    total := item.total
    customer :=
      { id := order.customer_id
        email := order.billing.email
        name := order.billing.first_name ++ " " ++ order.billing.last_name
        phone := order.billing.phone }
    booking_date := acc.booking_date.getD order.date_created
    persons := acc.persons.getD 1
    duration := acc.duration
    booking_end := acc.booking_end }

/-- `WooCommerceClient.extract_booking_data`: one Booking per line item. -/
def extract_booking_data (order : WooOrder) : List Booking :=
  order.line_items.map (bookingOfItem order)

/-! ## Date formatting in `sync_booking_to_odoo` (sync_service.py 60–66) -/

/-- `datetime.fromisoformat(...).strftime('%Y-%m-%d %H:%M')` on an ISO
string carrying a time: recognise the `YYYY-MM-DDTHH:MM` prefix and
reformat it with a space; `none` models the `ValueError` raised on a
malformed string (validation of the second/offset suffix is abstracted). -/
def format_iso_date (s : String) : Option String :=
  match s.data with
  | y1 :: y2 :: y3 :: y4 :: s1 :: mo1 :: mo2 :: s2 :: d1 :: d2 :: t ::
      h1 :: h2 :: c :: mi1 :: mi2 :: _rest =>
    if y1.isDigit && y2.isDigit && y3.isDigit && y4.isDigit && s1 == '-' &&
        mo1.isDigit && mo2.isDigit && s2 == '-' && d1.isDigit && d2.isDigit &&
        t == 'T' && h1.isDigit && h2.isDigit && c == ':' && mi1.isDigit && mi2.isDigit then
      some (String.mk [y1, y2, y3, y4, '-', mo1, mo2, '-', d1, d2, ' ', h1, h2, ':', mi1, mi2])
    else none
  | _ => none

/-- Python `booking_date.replace('Z', '+00:00')`: every occurrence of
the single character `Z` becomes `+00:00`. -/
def replaceZ (s : String) : String :=
  String.mk (s.data.flatMap (fun c => if c == 'Z' then ['+', '0', '0', ':', '0', '0'] else [c]))

/-- sync_service.py 61–66: if the raw booking date contains a literal `T`,
replace a trailing `Z` and reformat via `fromisoformat`/`strftime`;
otherwise pass the raw string through. `none` models the exception path. -/
def format_booking_date (s : String) : Option String :=
  if strContains s "T" then format_iso_date (replaceZ s)
  else some s

/-! ## Odoo-side payloads built by the service layer -/

/-- The `product_data` dict built by `sync_booking_to_odoo`
(sync_service.py 74–82) and consumed by `get_or_create_product`.
`woo_id` is `Option` because the client reads it with `.get`. -/
structure ProductData where
  name : String
  sku : String
  price : Rat
  woo_id : Option String
  booking_date : String
  persons : Int
  description : String
  deriving Repr, DecidableEq

/-- The composite external id `{order_id}_{product_id}` a booking's
service product is stored and re-resolved under
(sync_service.py lines 78 and 165). -/
def booking_external_id (b : Booking) : String :=
  toString b.order_id ++ "_" ++ toString b.product_id

/-- sync_service.py 60–82: format the date, build the unique product
name (person count appended when > 1), and assemble the product dict
with SKU `BOOKING_{order_id}_{product_id}` and external id
`{order_id}_{product_id}`. `none` models the `ValueError` from
`fromisoformat` (caught by the function's `except`). -/
def build_product_data (b : Booking) : Option ProductData :=
  match format_booking_date b.booking_date with
  | none => none
  | some formatted =>
    let base := b.product_name ++ " - " ++ formatted
    let product_name :=
      if b.persons > 1 then base ++ " (" ++ toString b.persons ++ " personas)" else base
    some
      { name := product_name
        sku := "BOOKING_" ++ booking_external_id b
        price := b.total
        woo_id := some (booking_external_id b)
        booking_date := formatted
        persons := b.persons
        description := "Clase reservada desde WooCommerce\nOrden: #" ++ b.order_number ++
          "\nFecha: " ++ formatted ++ "\nPersonas: " ++ toString b.persons }

/-! ## ERP client layer (odoo_client.py): in-memory database model

The XML-RPC transport inside `create_record`/`update_record` is assumed
to succeed here (its failure modes are modelled separately for
`search_records` below, where a claim is about them); the database is
the list of records the calls would touch. -/

/-- `res.partner` record as created/updated by the client. -/
structure Partner where
  id : Nat
  name : Option String
  email : Option String
  phone : Option String
  x_woo_id : Option String
  is_company : Bool
  customer_rank : Int
  deriving Repr, DecidableEq

/-- `product.product` record as created by `create_product`. -/
structure ProductRec where
  id : Nat
  name : String
  default_code : String
  list_price : Rat
  type : String
  sale_ok : Bool
  purchase_ok : Bool
  x_woo_id : Option String
  x_booking_date : String
  x_persons : Int
  description : String
  deriving Repr, DecidableEq

/-- The ERP tables the upsert primitives touch, plus the id the next
`create` call returns. -/
structure OdooDB where
  partners : List Partner
  products : List ProductRec
  next_id : Nat
  deriving Repr, DecidableEq

/-- The `customer_data` dict handed to `get_or_create_customer`
(built in sync_service.py 107–112 and 132–138). -/
structure CustomerData where
  id : Option Int
  name : Option String
  email : Option String
  phone : Option String
  woo_id : Option Int
  deriving Repr, DecidableEq

/-- `get_record_by_external_id('res.partner', ext)`: equality filter on
`x_woo_id`, limit 1 (first match). -/
def partnerByExternalId (db : OdooDB) (ext : String) : Option Partner :=
  db.partners.find? (fun p => p.x_woo_id == some ext)

/-- `get_record_by_external_id('product.product', ext)`. -/
def productByExternalId (db : OdooDB) (ext : String) : Option ProductRec :=
  db.products.find? (fun p => p.x_woo_id == some ext)

/-- `create_customer` (odoo_client.py 106–116): build the
`res.partner` payload and create it. The integer `woo_id` lands in the
char field `x_woo_id`, i.e. stored in its decimal string form. -/
def create_customer (db : OdooDB) (data : CustomerData) : Option Nat × OdooDB :=
  let rec_ : Partner :=
    { id := db.next_id
      name := data.name
      email := data.email
      phone := data.phone
      x_woo_id := data.woo_id.map toString
      is_company := false
      customer_rank := 1 }
  (some db.next_id, { db with partners := db.partners ++ [rec_], next_id := db.next_id + 1 })

/-- `create_product` (odoo_client.py 118–132). -/
def create_product (db : OdooDB) (pd : ProductData) : Option Nat × OdooDB :=
  let rec_ : ProductRec :=
    { id := db.next_id
      name := pd.name
      default_code := pd.sku
      list_price := pd.price
      type := "service"
      sale_ok := true
      purchase_ok := false
      x_woo_id := pd.woo_id
      x_booking_date := pd.booking_date
      x_persons := pd.persons
      description := pd.description }
  (some db.next_id, { db with products := db.products ++ [rec_], next_id := db.next_id + 1 })

/-- The `update_record` write of `x_woo_id := n` on partner `pid`, as
issued by the email-fallback branch of `get_or_create_customer`. -/
def setPartnerWooId (ps : List Partner) (pid : Nat) (n : Int) : List Partner :=
  ps.map (fun q => if q.id == pid then { q with x_woo_id := some (toString n) } else q)

/-- Python truthiness of the `woo_id` value on incoming customer data
(an integer id: absent or `0` is falsy). -/
def intTruthy : Option Int → Bool
  | none => false
  | some n => n != 0

/-- Python truthiness of the `woo_id` value on incoming product data
(a string: absent or empty is falsy). -/
def strTruthy : Option String → Bool
  | none => false
  | some s => s != ""

/-- `get_or_create_customer` (odoo_client.py 168–191): resolve by the
external-id field when the incoming data carries a truthy `woo_id`;
otherwise (or on a miss) fall back to an exact email match, writing the
incoming `woo_id` onto the matched record whenever one is carried; else
create a new partner. -/
def get_or_create_customer (db : OdooDB) (data : CustomerData) : Option Nat × OdooDB :=
  let extHit : Option Partner :=
    match data.woo_id with
    | some n => if n != 0 then partnerByExternalId db (toString n) else none
    | none => none
  match extHit with
  | some p => (some p.id, db)
  | none =>
    match db.partners.find? (fun p => p.email == data.email) with
    | some p =>
      match data.woo_id with
      | some n =>
        if n != 0 then
          (some p.id, { db with partners := setPartnerWooId db.partners p.id n })
        else (some p.id, db)
      | none => (some p.id, db)
    | none => create_customer db data

/-- `get_or_create_product` (odoo_client.py 193–201): resolve by the
external-id field when the incoming data carries a truthy `woo_id`;
on a hit return the existing id (no update of any kind); else create. -/
def get_or_create_product (db : OdooDB) (pd : ProductData) : Option Nat × OdooDB :=
  let extHit : Option ProductRec :=
    match pd.woo_id with
    | some s => if s != "" then productByExternalId db s else none
    | none => none
  match extHit with
  | some p => (some p.id, db)
  | none => create_product db pd

/-! ## `search_records` transport model (odoo_client.py 65–93, claim C8)

The two XML-RPC round trips (`search`, then `read`) are passed in as
explicit outcomes; `Transport.err` is an exception raised by the call,
which the function's `try/except` turns into `[]`. -/

/-- Outcome of one remote call: a value, or a raised transport error. -/
inductive Transport (α : Type) where
  | ok (val : α)
  | err
  deriving Repr, DecidableEq

/-- An opaque record as returned by the `read` step. -/
structure ReadRecord where
  id : Nat
  fields : List (String × String)
  deriving Repr, DecidableEq

/-- `search_records`: run `search` for ids; an exception yields `[]`;
no ids yields `[]`; then `read` the ids, an exception again yielding
`[]`; otherwise return the records. The lazy re-authentication and the
model/domain/fields/limit arguments are consumed by the remote calls and
so live inside the two oracles. -/
def search_records (searchStep : Transport (List Nat))
    (readStep : List Nat → Transport (List ReadRecord)) : List ReadRecord :=
  match searchStep with
  | Transport.err => []
  | Transport.ok ids =>
    if ids.isEmpty then []
    else
      match readStep ids with
      | Transport.err => []
      | Transport.ok recs => recs

/-! ## Reverse sync `sync_product_to_woo` (sync_service.py 266–292, claim C9) -/

/-- A `product.product` row as `read` returns it to `sync_odoo_to_woo`:
`x_woo_id` is `none` when the field is absent or the Odoo `False`
placeholder for an empty char field (both falsy in the `if`). -/
structure OdooProductRead where
  name : String
  default_code : String
  list_price : Rat
  x_woo_id : Option String
  description : String
  deriving Repr, DecidableEq

/-- Storefront REST calls `sync_product_to_woo` can issue. -/
inductive WooCall where
  | getProduct (id : Int)
  | updateProduct (id : Int)
  deriving Repr, DecidableEq

/-- Results the storefront would return: whether `get_product` finds a
product (truthy response) and whether `update_product` succeeds. -/
structure WooEnv where
  get_product : Int → Bool
  update_product : Int → Bool

/-- `sync_product_to_woo`: guard on a truthy `x_woo_id` different from
the string `'False'`; `int(woo_id)` may raise `ValueError` (caught by
the function's `except`, yielding `False` before any storefront call);
otherwise fetch the storefront product and, when present, push an
update, returning the truthiness of the update response. -/
def sync_product_to_woo (env : WooEnv) (p : OdooProductRead) : Bool × List WooCall :=
  match p.x_woo_id with
  | none => (false, [])
  | some s =>
    if s != "" && s != "False" then
      match pyInt s with
      | none => (false, [])
      | some n =>
        if env.get_product n then
          if env.update_product n then (true, [WooCall.getProduct n, WooCall.updateProduct n])
          else (false, [WooCall.getProduct n, WooCall.updateProduct n])
        else (false, [WooCall.getProduct n])
    else (false, [])

/-! ## Sync engine order pipeline (sync_service.py 14–215)

The Odoo client is an injected collaborator; the results its calls
would return are supplied by `SyncEnv`, and the mutating calls the
engine issues are recorded as an `OdooCall` trace. -/

/-- A `sale.order` row as the duplicate check reads it back. -/
structure SaleOrderRec where
  id : Nat
  x_woo_order_id : String
  deriving Repr, DecidableEq

/-- The `update_data` dict built by `update_existing_order`:
a note, plus a state only for `completed`/`cancelled`. -/
structure SaleOrderUpdate where
  note : String
  state : Option String
  deriving Repr, DecidableEq

/-- The `order_data` dict built by `create_sale_order_in_odoo`
(sync_service.py 147–154). `x_woo_order_id` is the raw integer id here
(the duplicate check later compares it against `str(order_id)`). -/
structure SaleOrderPayload where
  partner_id : Nat
  x_woo_order_id : Nat
  origin : String
  date_order : String
  state : String
  note : String
  deriving Repr, DecidableEq

/-- The `line_data` dict for one `sale.order.line`
(sync_service.py 169–174). -/
structure OrderLinePayload where
  order_id : Nat
  product_id : Nat
  product_uom_qty : Int
  price_unit : Rat
  deriving Repr, DecidableEq

/-- Mutating / upserting ERP calls the engine issues, in order. -/
inductive OdooCall where
  | updateOrder (id : Nat) (upd : SaleOrderUpdate)
  | createOrder (payload : SaleOrderPayload)
  | createLine (payload : OrderLinePayload)
  | getOrCreateCustomer (data : CustomerData)
  | getOrCreateProduct (data : ProductData)
  deriving Repr, DecidableEq

/-- Results of the client calls the engine makes, supplied as oracles. -/
structure SyncEnv where
  search_sale_order : String → Option SaleOrderRec
  update_record : Nat → SaleOrderUpdate → Bool
  get_or_create_customer : CustomerData → Option Nat
  get_or_create_product : ProductData → Option Nat
  create_sale_order : SaleOrderPayload → Option Nat
  product_by_external_id : String → Option Nat

/-- Python exception relevant to the pipeline. -/
inductive PyError where
  | zeroDivision
  deriving Repr, DecidableEq

deriving instance DecidableEq for Except

/-- The unit-price computation of sync_service.py line 173:
`booking.get('total', 0) / booking.get('quantity', 1)`; a zero quantity
raises `ZeroDivisionError`. -/
def compute_unit_price (total : Rat) (quantity : Int) : Except PyError Rat :=
  if quantity == 0 then Except.error PyError.zeroDivision
  else Except.ok (total / (quantity : Rat))

/-- `sync_booking_to_odoo` (sync_service.py 57–96): build the product
dict (a date-parse error is caught here, yielding `False` with no ERP
call) and upsert it; success is a non-`None` product id. -/
def sync_booking_to_odoo (env : SyncEnv) (b : Booking) : Bool × List OdooCall :=
  match build_product_data b with
  | none => (false, [])
  | some pd =>
    match env.get_or_create_product pd with
    | some _ => (true, [OdooCall.getOrCreateProduct pd])
    | none => (false, [OdooCall.getOrCreateProduct pd])

/-- The `customer_data` dict built in `create_sale_order_in_odoo`
(sync_service.py 132–138). -/
def customer_data_of_order (o : WooOrder) : CustomerData :=
  { id := some (o.customer_id : Int)
    name := some ((o.billing.first_name ++ " " ++ o.billing.last_name).trim)
    email := some o.billing.email
    phone := some o.billing.phone
    woo_id := some (o.customer_id : Int) }

/-- The `sale.order` header payload (sync_service.py 147–154). The note
renders the order total via `toString`; the exact float rendering of
Python is immaterial to every claim. -/
def sale_order_payload (partner : Nat) (o : WooOrder) : SaleOrderPayload :=
  { partner_id := partner
    x_woo_order_id := o.id
    origin := "WooCommerce #" ++ o.number
    date_order := o.date_created
    state := "draft"
    note := "Orden importada desde WooCommerce\nFecha original: " ++ o.date_created ++
      "\nTotal WC: " ++ toString o.total }

/-- The per-booking loop of `create_sale_order_in_odoo`
(sync_service.py 163–178): look the service product up by its composite
external id; when found, compute the unit price and issue the line
create. A `ZeroDivisionError` escapes the loop: lines created before it
persist, the rest are never attempted. -/
def process_order_lines (env : SyncEnv) (oid : Nat) :
    List Booking → List OdooCall × Option PyError
  | [] => ([], none)
  | b :: rest =>
    match env.product_by_external_id (booking_external_id b) with
    | some pid =>
      match compute_unit_price b.total b.quantity with
      | Except.error e => ([], some e)
      | Except.ok price =>
        let line : OrderLinePayload :=
          { order_id := oid
            product_id := pid
            product_uom_qty := b.quantity
            price_unit := price }
        let tail := process_order_lines env oid rest
        (OdooCall.createLine line :: tail.1, tail.2)
    | none => process_order_lines env oid rest

/-- `create_sale_order_in_odoo` (sync_service.py 128–185): resolve the
customer (abort on failure), create the header (abort on failure), then
create the lines; any exception inside — in particular the
divide-by-zero — is caught by the function's `except`, which returns
`None` after the calls already issued. -/
def create_sale_order_in_odoo (env : SyncEnv) (o : WooOrder) (bookings : List Booking) :
    Option Nat × List OdooCall :=
  let cd := customer_data_of_order o
  match env.get_or_create_customer cd with
  | none => (none, [OdooCall.getOrCreateCustomer cd])
  | some partner =>
    let payload := sale_order_payload partner o
    match env.create_sale_order payload with
    | none => (none, [OdooCall.getOrCreateCustomer cd, OdooCall.createOrder payload])
    | some oid =>
      let lines := process_order_lines env oid bookings
      let calls := OdooCall.getOrCreateCustomer cd :: OdooCall.createOrder payload :: lines.1
      match lines.2 with
      | some _ => (none, calls)
      | none => (some oid, calls)

/-- The `update_data` dict of `update_existing_order`
(sync_service.py 193–202); `now` is the `datetime.now().isoformat()`
timestamp, passed in explicitly. -/
def order_update_payload (now : String) (o : WooOrder) : SaleOrderUpdate :=
  { note := "Orden actualizada desde WooCommerce\nÚltima actualización: " ++ now ++
      "\nTotal WC: " ++ toString o.total
    state :=
      if o.status == "completed" then some "sale"
      else if o.status == "cancelled" then some "cancel"
      else none }

/-- `update_existing_order` (sync_service.py 187–215): one `write` on the
existing sale order; success is the truthiness of the write result. -/
def update_existing_order (env : SyncEnv) (now : String) (existing : SaleOrderRec)
    (o : WooOrder) : Bool × List OdooCall :=
  let upd := order_update_payload now o
  (env.update_record existing.id upd, [OdooCall.updateOrder existing.id upd])

/-- `process_woo_order` (sync_service.py 14–55): duplicate check by
external id `str(order_id)`; on a hit, update; otherwise extract the
bookings, fail on zero bookings, upsert each booking, and when at least
one succeeded create the sale order; overall success is
`success_count > 0`. -/
def process_woo_order (env : SyncEnv) (now : String) (o : WooOrder) : Bool × List OdooCall :=
  match env.search_sale_order (toString o.id) with
  | some existing => update_existing_order env now existing o
  | none =>
    let bookings := extract_booking_data o
    if bookings.isEmpty then (false, [])
    else
      let results := bookings.map (sync_booking_to_odoo env)
      let success_count := (results.filter (fun r => r.1)).length
      let calls := (results.map (fun r => r.2)).flatten
      if success_count > 0 then
        (true, calls ++ (create_sale_order_in_odoo env o bookings).2)
      else (false, calls)

/-! ## Concrete fixtures used by witnesses and counterexamples -/

/-- A billing block shared by the sample orders. -/
def sampleBilling : Billing :=
  { email := "ana@example.com", first_name := "Ana", last_name := "Diaz", phone := "600111222" }

/-- A line item carrying no metadata at all. -/
def noMetaItem : LineItem :=
  { product_id := 9, name := "Yoga", quantity := 1, total := 50, meta_data := [] }

/-- Storefront order #42: one line item, no metadata keys. -/
def noMetaOrder : WooOrder :=
  { id := 42, number := "42", status := "completed", customer_id := 3,
    date_created := "2024-05-01T10:00:00", total := 50, billing := sampleBilling,
    line_items := [noMetaItem] }

/-- A line item carrying exactly one metadata entry, under the
persons-matching key `Persons`, with value `v`. -/
def personsProbeItem (v : String) : LineItem :=
  { product_id := 9, name := "Yoga", quantity := 1, total := 50,
    meta_data := [{ key := "Persons", value := v }] }

/-- An order whose single line item is `personsProbeItem v`. -/
def personsProbeOrder (v : String) : WooOrder :=
  { id := 42, number := "42", status := "completed", customer_id := 3,
    date_created := "2024-05-01", total := 50, billing := sampleBilling,
    line_items := [personsProbeItem v] }

/-- The pre-existing ERP sale order with external order id `"555"`. -/
def ex555 : SaleOrderRec := { id := 10, x_woo_order_id := "555" }

/-- Incoming storefront order id 555 with status `completed`. -/
def order555 : WooOrder :=
  { id := 555, number := "555", status := "completed", customer_id := 3,
    date_created := "2024-05-01", total := 80, billing := sampleBilling,
    line_items := [] }

/-- Client-call results for the order-555 scenario: the duplicate check
finds `ex555`, every other call succeeds. -/
def env555 : SyncEnv :=
  { search_sale_order := fun s => if s == "555" then some ex555 else none
    update_record := fun _ _ => true
    get_or_create_customer := fun _ => some 1
    get_or_create_product := fun _ => some 2
    create_sale_order := fun _ => some 77
    product_by_external_id := fun _ => some 5 }

/-- Same client-call results, but no pre-existing sale order. -/
def envNoDup : SyncEnv :=
  { env555 with search_sale_order := fun _ => none }

/-- A booking with a negative quantity (storefront line `quantity = -1`,
as a refund-like payload would carry). -/
def negQtyBooking : Booking :=
  { order_id := 100, order_number := "100", product_id := 7, product_name := "Yoga",
    quantity := -1, total := 50,
    customer := { id := 3, email := "ana@example.com", name := "Ana Diaz", phone := "600111222" },
    booking_date := "2024-05-01", persons := 1, duration := none, booking_end := none }

/-- The same booking with quantity 0. -/
def zeroQtyBooking : Booking := { negQtyBooking with quantity := 0 }

/-- A booking with `order_id = 100`, `product_id = 7` and a plain date. -/
def booking100_7 : Booking := { negQtyBooking with quantity := 2 }

/-- The order the bookings above belong to (no duplicate in the ERP). -/
def order100 : WooOrder :=
  { id := 100, number := "100", status := "processing", customer_id := 3,
    date_created := "2024-05-01", total := 50, billing := sampleBilling,
    line_items := [] }

/-- ERP partner already mapped to storefront customer 123 via the
external-id field. -/
def mappedPartner : Partner :=
  { id := 1, name := some "Ana Diaz", email := some "ana@example.com",
    phone := some "600111222", x_woo_id := some "123", is_company := false, customer_rank := 1 }

/-- ERP database containing only `mappedPartner`. -/
def mappedDb : OdooDB := { partners := [mappedPartner], products := [], next_id := 50 }

/-- The storefront customer payload for customer 123. -/
def customer123 : CustomerData :=
  { id := some 123, name := some "Ana Diaz", email := some "ana@example.com",
    phone := some "600111222", woo_id := some 123 }

/-- ERP partner matched by email but already carrying a different
external id (`"999"`). -/
def conflictPartner : Partner :=
  { mappedPartner with x_woo_id := some "999" }

/-- ERP database containing only `conflictPartner`. -/
def conflictDb : OdooDB := { partners := [conflictPartner], products := [], next_id := 50 }

/-- ERP service product already stored under external id `"100_7"`. -/
def existingProduct : ProductRec :=
  { id := 5, name := "Yoga - 2024-05-01", default_code := "BOOKING_100_7", list_price := 50,
    type := "service", sale_ok := true, purchase_ok := false, x_woo_id := some "100_7",
    x_booking_date := "2024-05-01", x_persons := 1, description := "" }

/-- ERP database containing only `existingProduct`. -/
def productDb : OdooDB := { partners := [], products := [existingProduct], next_id := 50 }

/-- The incoming product payload carrying external id `"100_7"`. -/
def incomingProduct : ProductData :=
  { name := "Yoga - 2024-05-01", sku := "BOOKING_100_7", price := 50,
    woo_id := some "100_7", booking_date := "2024-05-01", persons := 1, description := "" }

/-- An ERP product row whose `x_woo_id` is the composite id `"100_7"`
minted by the booking sync. -/
def compositeIdProduct : OdooProductRead :=
  { name := "Yoga - 2024-05-01", default_code := "BOOKING_100_7", list_price := 50,
    x_woo_id := some "100_7", description := "" }

/-- An ERP product row with a genuinely unparseable `x_woo_id`. -/
def badIdProduct : OdooProductRead :=
  { compositeIdProduct with x_woo_id := some "abc" }

/-- A storefront where product 1007 exists and updates succeed. -/
def wooEnv1007 : WooEnv :=
  { get_product := fun n => n == 1007, update_product := fun _ => true }

/-- The product payload `build_product_data` yields for `booking100_7`. -/
def builtProduct100_7 : ProductData :=
  { name := "Yoga - 2024-05-01", sku := "BOOKING_100_7", price := 50,
    woo_id := some "100_7", booking_date := "2024-05-01", persons := 1,
    description := "Clase reservada desde WooCommerce\nOrden: #100\nFecha: 2024-05-01\nPersonas: 1" }

/-! ## Theorems settling the claims -/

/-- Helper: on a found duplicate, `process_woo_order` is exactly
`update_existing_order` on the found record. -/
theorem process_woo_order_found (env : SyncEnv) (now : String) (o : WooOrder)
    (ex : SaleOrderRec) (hfound : env.search_sale_order (toString o.id) = some ex) :
    process_woo_order env now o = update_existing_order env now ex o := by
  unfold process_woo_order
  rw [hfound]

/-- C2: when the duplicate check finds an ERP sale order matching the
incoming order's id and the incoming status is `completed`, the engine
issues exactly one call — the update of the found order, whose payload
sets the state to `sale` — and in particular issues no sale-order
create. -/
theorem process_woo_order_existing_updates_not_creates
    (env : SyncEnv) (now : String) (o : WooOrder) (ex : SaleOrderRec)
    (hfound : env.search_sale_order (toString o.id) = some ex)
    (hstatus : o.status = "completed") :
    (process_woo_order env now o).2 =
      [OdooCall.updateOrder ex.id (order_update_payload now o)] ∧
    (order_update_payload now o).state = some "sale" ∧
    (∀ p, OdooCall.createOrder p ∉ (process_woo_order env now o).2) := by
  have h1 := process_woo_order_found env now o ex hfound
  refine ⟨?_, ?_, ?_⟩
  · rw [h1]; rfl
  · unfold order_update_payload
    simp [hstatus]
  · intro p hp
    rw [h1] at hp
    unfold update_existing_order at hp
    simp at hp

/-- C2 witness: the concrete order-555 scenario — the trace is exactly
the one update call, whose payload sets the state to `sale`. -/
theorem process_woo_order_existing_updates_not_creates_witness :
    (process_woo_order env555 "2024-06-01T00:00:00" order555).2 =
      [OdooCall.updateOrder ex555.id (order_update_payload "2024-06-01T00:00:00" order555)] ∧
    (order_update_payload "2024-06-01T00:00:00" order555).state = some "sale" :=
  ⟨(process_woo_order_existing_updates_not_creates env555 "2024-06-01T00:00:00" order555 ex555
      (by decide) rfl).1,
    (process_woo_order_existing_updates_not_creates env555 "2024-06-01T00:00:00" order555 ex555
      (by decide) rfl).2.1⟩

/-- C3: a storefront customer already mapped to an ERP partner via the
external-id field resolves to that partner's id, and the database —
hence the partner set — is left unchanged: re-processing the identical
payload creates no second partner. -/
theorem get_or_create_customer_idempotent
    (db : OdooDB) (data : CustomerData) (n : Int) (p : Partner)
    (hid : data.woo_id = some n) (hn : n ≠ 0)
    (hfound : partnerByExternalId db (toString n) = some p) :
    get_or_create_customer db data = (some p.id, db) := by
  unfold get_or_create_customer
  rw [hid]
  simp [hn, hfound]

/-- C3 witness: customer 123 already mapped to partner 1. -/
theorem get_or_create_customer_idempotent_witness :
    get_or_create_customer mappedDb customer123 = (some mappedPartner.id, mappedDb) :=
  get_or_create_customer_idempotent mappedDb customer123 123 mappedPartner rfl
    (by decide) (by decide)

/-- C4 counterexample: partner 1 carries external id `"999"`; the
incoming payload for the same email carries external id 123. The claim
says the matched record keeps `"999"`; the code overwrites it with
`"123"`. -/
theorem email_backfill_keeps_existing_id_counterexample :
    conflictPartner.x_woo_id = some "999" ∧
    ((get_or_create_customer conflictDb customer123).2.partners.map Partner.x_woo_id
      = [some "123"]) ∧
    ((get_or_create_customer conflictDb customer123).2.partners.map Partner.x_woo_id
      ≠ [some "999"]) := by
  refine ⟨rfl, by decide, by decide⟩

/-- C4 as amended: in the email-fallback path the incoming external id
is written onto the matched record whenever the incoming data carries a
truthy one — regardless of whether the record already had an external
id (last writer wins); the record's value is kept only when the
incoming data carries none. -/
theorem get_or_create_customer_email_match_overwrites
    (db : OdooDB) (data : CustomerData) (n : Int) (p : Partner)
    (hid : data.woo_id = some n) (hn : n ≠ 0)
    (hmiss : partnerByExternalId db (toString n) = none)
    (hemail : db.partners.find? (fun q => q.email == data.email) = some p) :
    get_or_create_customer db data =
      (some p.id, { db with partners := setPartnerWooId db.partners p.id n }) := by
  unfold get_or_create_customer
  rw [hid]
  simp [hn, hmiss, hemail]

/-- C4 witness: the concrete conflicting-id scenario. -/
theorem get_or_create_customer_email_match_overwrites_witness :
    get_or_create_customer conflictDb customer123 =
      (some conflictPartner.id,
        { conflictDb with partners := setPartnerWooId conflictDb.partners conflictPartner.id 123 }) :=
  get_or_create_customer_email_match_overwrites conflictDb customer123 123 conflictPartner rfl
    (by decide) (by decide) (by decide)

/-- C7: the product upsert never updates. When the incoming data carries
a truthy external id that matches an existing ERP product, the existing
record's id is returned and the whole database — every field of every
record — is unchanged; when no record with that external id exists, the
call is exactly a create. -/
theorem get_or_create_product_never_updates :
    (∀ (db : OdooDB) (pd : ProductData) (s : String) (p : ProductRec),
      pd.woo_id = some s → s ≠ "" → productByExternalId db s = some p →
      get_or_create_product db pd = (some p.id, db)) ∧
    (∀ (db : OdooDB) (pd : ProductData) (s : String),
      pd.woo_id = some s → s ≠ "" → productByExternalId db s = none →
      get_or_create_product db pd = create_product db pd) := by
  constructor
  · intro db pd s p hid hs hfound
    unfold get_or_create_product
    rw [hid]
    simp [hs, hfound]
  · intro db pd s hid hs hmiss
    unfold get_or_create_product
    rw [hid]
    simp [hs, hmiss]

/-- C7 witness: the incoming `"100_7"` product resolves to the existing
record with the database untouched. -/
theorem get_or_create_product_never_updates_witness :
    get_or_create_product productDb incomingProduct = (some existingProduct.id, productDb) :=
  get_or_create_product_never_updates.1 productDb incomingProduct "100_7" existingProduct rfl
    (by decide) (by decide)

/-- C8: `search_records` always returns a list — `[]` when the search
step raises, when the search matches nothing, and when the read step
raises — so a caller cannot tell "no match" from "search failed". -/
theorem search_records_empty_on_failure_or_no_match :
    (∀ r, search_records Transport.err r = []) ∧
    (∀ r, search_records (Transport.ok []) r = []) ∧
    (∀ ids r, r ids = Transport.err → search_records (Transport.ok ids) r = []) := by
  refine ⟨fun _ => rfl, fun _ => rfl, fun ids r h => ?_⟩
  cases ids with
  | nil => rfl
  | cons i rest => simp [search_records, h]

/-- C8 witness: a read-step failure on a non-empty id list yields `[]`. -/
theorem search_records_empty_on_failure_or_no_match_witness :
    search_records (Transport.ok [1, 2]) (fun _ => Transport.err) = [] :=
  search_records_empty_on_failure_or_no_match.2.2 [1, 2] (fun _ => Transport.err) rfl

/-- C9 counterexample: the composite external id `"100_7"` minted by the
booking sync IS parsed by Python's `int` (underscores are digit
separators, PEP 515), so `sync_product_to_woo` does reach the
storefront: with product 1007 present there it issues a lookup and an
update and reports success — not the failure with no calls the claim
requires. -/
theorem sync_product_composite_id_counterexample :
    compositeIdProduct.x_woo_id = some "100_7" ∧
    pyInt "100_7" = some 1007 ∧
    sync_product_to_woo wooEnv1007 compositeIdProduct =
      (true, [WooCall.getProduct 1007, WooCall.updateProduct 1007]) := by
  refine ⟨rfl, by decide, by decide⟩

/-- C9 as amended: the reverse-sync step returns failure and performs no
storefront call when the external-id field is absent, empty, the
string `'False'`, or a string Python's `int` rejects — but composite
ids `{order_id}_{product_id}` are accepted by `int` (underscores
between digits), so they are NOT in that class. -/
theorem sync_product_to_woo_skips_unparseable
    (env : WooEnv) (p : OdooProductRead)
    (h : p.x_woo_id = none ∨ p.x_woo_id = some "" ∨ p.x_woo_id = some "False" ∨
      (∃ s, p.x_woo_id = some s ∧ pyInt s = none)) :
    sync_product_to_woo env p = (false, []) := by
  rcases h with h | h | h | ⟨s, hs, hparse⟩
  · simp [sync_product_to_woo, h]
  · simp [sync_product_to_woo, h]
  · simp [sync_product_to_woo, h]
  · simp only [sync_product_to_woo, hs]
    split
    · rw [hparse]
    · rfl

/-- C9 witness: a genuinely unparseable external id (`"abc"`) yields
failure with no storefront call. -/
theorem sync_product_to_woo_skips_unparseable_witness :
    sync_product_to_woo wooEnv1007 badIdProduct = (false, []) :=
  sync_product_to_woo_skips_unparseable wooEnv1007 badIdProduct
    (Or.inr (Or.inr (Or.inr ⟨"abc", rfl, by decide⟩)))

/-- C5: on an order none of whose line items carry metadata, every
extracted booking falls back to `persons = 1` and
`booking_date = date_created`. -/
theorem extract_booking_no_meta_defaults
    (o : WooOrder) (hmeta : ∀ item ∈ o.line_items, item.meta_data = [])
    (b : Booking) (hb : b ∈ extract_booking_data o) :
    b.persons = 1 ∧ b.booking_date = o.date_created := by
  unfold extract_booking_data at hb
  rcases List.mem_map.mp hb with ⟨item, hitem, rfl⟩
  unfold bookingOfItem
  rw [hmeta item hitem]
  simp [BookingAcc.init]

/-- C5 witness: order #42 with one metadata-free line item. -/
theorem extract_booking_no_meta_defaults_witness :
    (bookingOfItem noMetaOrder noMetaItem).persons = 1 ∧
    (bookingOfItem noMetaOrder noMetaItem).booking_date = noMetaOrder.date_created :=
  extract_booking_no_meta_defaults noMetaOrder (by decide)
    (bookingOfItem noMetaOrder noMetaItem) (by simp [extract_booking_data, noMetaOrder])

/-- C6: the service product payload built for a booking carries external
id `{order_id}_{product_id}` and SKU `BOOKING_{order_id}_{product_id}`;
for `order_id = 100, product_id = 7` these are exactly `"100_7"` and
`"BOOKING_100_7"`. -/
theorem build_product_data_ids
    (b : Booking) (pd : ProductData) (h : build_product_data b = some pd) :
    pd.woo_id = some (booking_external_id b) ∧
    pd.sku = "BOOKING_" ++ booking_external_id b ∧
    (b.order_id = 100 → b.product_id = 7 →
      pd.woo_id = some "100_7" ∧ pd.sku = "BOOKING_100_7") := by
  unfold build_product_data at h
  cases hf : format_booking_date b.booking_date with
  | none => rw [hf] at h; cases h
  | some f =>
    rw [hf] at h
    simp only [Option.some.injEq] at h
    subst h
    refine ⟨rfl, rfl, ?_⟩
    intro h100 h7
    unfold booking_external_id
    rw [h100, h7]
    exact ⟨rfl, rfl⟩

/-- C6 witness: the concrete booking with order 100, product 7 builds
exactly `builtProduct100_7`, whose ids are `"100_7"` / `"BOOKING_100_7"`. -/
theorem build_product_data_ids_witness :
    build_product_data booking100_7 = some builtProduct100_7 ∧
    builtProduct100_7.woo_id = some "100_7" ∧ builtProduct100_7.sku = "BOOKING_100_7" :=
  ⟨by decide, (build_product_data_ids booking100_7 builtProduct100_7 (by decide)).2.2 rfl rfl⟩

/-- Helper for C1: the unit-price computation raises exactly at
quantity 0. -/
theorem compute_unit_price_error_iff (t : Rat) (q : Int) :
    compute_unit_price t q = Except.error PyError.zeroDivision ↔ q = 0 := by
  unfold compute_unit_price
  constructor
  · intro h
    by_contra hq
    simp [hq] at h
  · intro h
    simp [h]

/-- Helper for C1: when every booking's service product resolves and
some booking has quantity 0, the line loop ends in the
`ZeroDivisionError`. -/
theorem process_order_lines_zero_qty_error (env : SyncEnv) (oid : Nat)
    (bookings : List Booking)
    (hall : ∀ b ∈ bookings, (env.product_by_external_id (booking_external_id b)).isSome)
    (hzero : ∃ b ∈ bookings, b.quantity = 0) :
    (process_order_lines env oid bookings).2 = some PyError.zeroDivision := by
  induction bookings with
  | nil => rcases hzero with ⟨b, hb, _⟩; cases hb
  | cons b rest ih =>
    rcases Option.isSome_iff_exists.mp (hall b (List.mem_cons_self b rest)) with ⟨pid, hpid⟩
    unfold process_order_lines
    rw [hpid]
    by_cases hq : b.quantity = 0
    · simp [compute_unit_price, hq]
    · have hok : compute_unit_price b.total b.quantity =
          Except.ok (b.total / (b.quantity : Rat)) := by
        unfold compute_unit_price
        simp [hq]
      rw [hok]
      have hrest : ∃ w ∈ rest, w.quantity = 0 := by
        rcases hzero with ⟨w, hw, hwq⟩
        rcases List.mem_cons.mp hw with rfl | hwrest
        · exact absurd hwq hq
        · exact ⟨w, hwrest, hwq⟩
      simpa using ih (fun x hx => hall x (List.mem_cons_of_mem b hx)) hrest

/-- C1 as amended: the computation `total / quantity` fails exactly at
quantity 0, and there it is a `ZeroDivisionError` that
`create_sale_order_in_odoo`'s handler catches, making the whole call
return `None` — an explicit failure signal, never an unhandled crash;
a negative quantity does not fail at all. -/
theorem create_sale_order_zero_quantity_clean_failure
    (env : SyncEnv) (o : WooOrder) (bookings : List Booking) (partner oid : Nat)
    (hcust : env.get_or_create_customer (customer_data_of_order o) = some partner)
    (horder : env.create_sale_order (sale_order_payload partner o) = some oid)
    (hall : ∀ b ∈ bookings, (env.product_by_external_id (booking_external_id b)).isSome)
    (hzero : ∃ b ∈ bookings, b.quantity = 0) :
    (create_sale_order_in_odoo env o bookings).1 = none ∧
    (∀ (t : Rat) (q : Int),
      compute_unit_price t q = Except.error PyError.zeroDivision ↔ q = 0) := by
  refine ⟨?_, compute_unit_price_error_iff⟩
  have herr := process_order_lines_zero_qty_error env oid bookings hall hzero
  simp [create_sale_order_in_odoo, hcust, horder, herr]

/-- C1 witness: the zero-quantity booking scenario. -/
theorem create_sale_order_zero_quantity_clean_failure_witness :
    (create_sale_order_in_odoo envNoDup order100 [zeroQtyBooking]).1 = none :=
  (create_sale_order_zero_quantity_clean_failure envNoDup order100 [zeroQtyBooking] 1 77
    rfl rfl (by decide) ⟨zeroQtyBooking, List.mem_singleton.mpr rfl, rfl⟩).1

/-- C1 counterexample: for the booking with quantity `-1` (≤ 0) the
unit-price computation does NOT fail — it yields `-50` — and
`create_sale_order_in_odoo` completes with the created order id, with
no error signal of any kind. -/
theorem unit_price_negative_qty_counterexample :
    negQtyBooking.quantity = -1 ∧
    compute_unit_price negQtyBooking.total negQtyBooking.quantity = Except.ok (-50) ∧
    (create_sale_order_in_odoo envNoDup order100 [negQtyBooking]).1 = some 77 := by
  refine ⟨rfl, ?_, rfl⟩
  show compute_unit_price 50 (-1) = Except.ok (-50)
  simp [compute_unit_price]
  norm_num

/-- Helper for C10: the parsed person count is never negative. -/
theorem parsePersons_nonneg (v : String) : 0 ≤ parsePersons v := by
  unfold parsePersons
  split
  · exact Int.natCast_nonneg _
  · norm_num

/-- Helper for C10: `scanMeta` with its local bindings expanded. -/
theorem scanMeta_eq (acc : BookingAcc) (m : MetaEntry) :
    scanMeta acc m =
      (if strContains (pyLower m.key) "booking_date" || strContains (pyLower m.key) "from" then
        { acc with booking_date := some m.value }
      else if strContains (pyLower m.key) "persons" || strContains (pyLower m.key) "person" then
        { acc with persons := some (parsePersons m.value) }
      else if strContains (pyLower m.key) "duration" then
        { acc with duration := some m.value }
      else if strContains (pyLower m.key) "to" && acc.booking_date.isNone then
        { acc with booking_end := some m.value }
      else acc) := rfl

/-- Helper for C10: a metadata step either leaves the person count
untouched or sets it to the parse of its value. -/
theorem scanMeta_persons_cases (acc : BookingAcc) (m : MetaEntry) :
    (scanMeta acc m).persons = acc.persons ∨
    (scanMeta acc m).persons = some (parsePersons m.value) := by
  rw [scanMeta_eq]
  split
  · left; rfl
  · split
    · right; rfl
    · split
      · left; rfl
      · split
        · left; rfl
        · left; rfl

/-- Helper for C10: one metadata step preserves "persons, if set, is
non-negative". -/
theorem scanMeta_persons_nonneg (acc : BookingAcc) (m : MetaEntry)
    (h : ∀ k, acc.persons = some k → 0 ≤ k) :
    ∀ k, (scanMeta acc m).persons = some k → 0 ≤ k := by
  intro k hk
  rcases scanMeta_persons_cases acc m with hc | hc
  · exact h k (hc ▸ hk)
  · rw [hc] at hk
    simp only [Option.some.injEq] at hk
    subst hk
    exact parsePersons_nonneg m.value

/-- Helper for C10: the whole metadata loop preserves the invariant. -/
theorem foldl_scanMeta_persons_nonneg (metas : List MetaEntry) (acc : BookingAcc)
    (h : ∀ k, acc.persons = some k → 0 ≤ k) :
    ∀ k, (metas.foldl scanMeta acc).persons = some k → 0 ≤ k := by
  induction metas generalizing acc with
  | nil => exact h
  | cons m rest ih => exact ih (scanMeta acc m) (scanMeta_persons_nonneg acc m h)

/-- Helper for C10: every extracted booking has a non-negative person
count. -/
theorem extract_booking_persons_nonneg (o : WooOrder) (b : Booking)
    (hb : b ∈ extract_booking_data o) : 0 ≤ b.persons := by
  rcases List.mem_map.mp hb with ⟨item, _, rfl⟩
  show 0 ≤ ((item.meta_data.foldl scanMeta BookingAcc.init).persons).getD 1
  cases hacc : (item.meta_data.foldl scanMeta BookingAcc.init).persons with
  | none => norm_num
  | some k =>
    have hinit : ∀ k, BookingAcc.init.persons = some k → (0 : Int) ≤ k := by
      intro k hk
      simp [BookingAcc.init] at hk
    simpa using foldl_scanMeta_persons_nonneg item.meta_data BookingAcc.init hinit k hacc

/-- Helper for C10: on the probe order the extracted person count is the
persons-parse of the metadata value. -/
theorem extract_personsProbe (v : String) :
    (extract_booking_data (personsProbeOrder v)).map Booking.persons = [parsePersons v] := by
  have h1 : (strContains (pyLower "Persons") "booking_date"
      || strContains (pyLower "Persons") "from") = false := by decide
  have h2 : (strContains (pyLower "Persons") "persons"
      || strContains (pyLower "Persons") "person") = true := by decide
  simp [extract_booking_data, personsProbeOrder, personsProbeItem, bookingOfItem,
    scanMeta, h1, h2]

/-- C10: under a persons-matching metadata key, the person count is the
integer value of the metadata string exactly when that string is all
decimal digits, and 1 otherwise — so `"-3"` and `"2.5"` yield 1, `"0"`
yields 0 — and the extracted person count is never negative. -/
theorem extract_persons_digit_rule :
    (∀ v : String, (extract_booking_data (personsProbeOrder v)).map Booking.persons =
      [if pyIsDigit v then (pyDigitsToNat v : Int) else 1]) ∧
    (extract_booking_data (personsProbeOrder "-3")).map Booking.persons = [1] ∧
    (extract_booking_data (personsProbeOrder "2.5")).map Booking.persons = [1] ∧
    (extract_booking_data (personsProbeOrder "0")).map Booking.persons = [0] ∧
    (∀ (o : WooOrder) (b : Booking), b ∈ extract_booking_data o → 0 ≤ b.persons) := by
  have hrule : ∀ v : String,
      (extract_booking_data (personsProbeOrder v)).map Booking.persons =
        [if pyIsDigit v then (pyDigitsToNat v : Int) else 1] := by
    intro v
    rw [extract_personsProbe v]
    unfold parsePersons
    rfl
  refine ⟨hrule, ?_, ?_, ?_, extract_booking_persons_nonneg⟩
  · rw [hrule]; decide
  · rw [hrule]; decide
  · rw [hrule]; decide

/-- C10 witness: the probe order with value `"4"` yields person count 4
(and, by the last conjunct, a non-negative one). -/
theorem extract_persons_digit_rule_witness :
    (extract_booking_data (personsProbeOrder "4")).map Booking.persons = [4] := by
  have h := extract_persons_digit_rule.1 "4"
  simpa using h

end OdooWoo
